import Mathlib

/-!
Verification development for the `pineapplebot` Slack ↔ OpenAI Assistant relay
(`app.py`).  The program is embedded shallowly:

* external collaborators (Slack chat-post calls, OpenAI thread/message/run
  calls, the wall clock) are modelled by an `Env` record giving each call
  site its result — `Except String α` mirrors "returns α or raises";
* `process_with_assistant` becomes `processWithAssistant`, a pure function
  from the environment, the conversation map and the request to the list of
  observable effects it performs, the updated conversation map, and whether
  it returns normally or lets an exception escape to its caller;
* the poll loop runs on explicit fuel (the Python `while` loop);
* the two event handlers and the mention cleaner are embedded as pure
  functions over event records / character lists.
-/

namespace Pineapple

/-! ## Data model (mirrors the OpenAI objects the code touches) -/

/-- An OpenAI run as the code reads it: `run.id`, `run.status` (a string in
the code, compared against string literals), `run.last_error` with fields
`.code` and `.message`. -/
structure Run where
  id : String
  status : String
  lastError : Option (String × String)
  deriving Repr, DecidableEq

/-- One content block of an assistant message: `content_block.type` and
`content_block.text.value`. -/
structure ContentBlock where
  type : String
  text : String
  deriving Repr, DecidableEq

/-- A message returned by `messages.list`: `m.run_id`, `m.role`,
`m.content`. -/
structure Msg where
  run_id : String
  role : String
  content : List ContentBlock
  deriving Repr, DecidableEq

/-- The exceptions that can flow through `process_with_assistant`:
`OpenAIError`, `SlackApiError`, `TimeoutError` (each carrying its message). -/
inductive Exc where
  | openai (msg : String)
  | slack (msg : String)
  | timeoutExc (msg : String)
  deriving Repr, DecidableEq

/-- How the call to `process_with_assistant` ends: normal return, an
exception escaping to the caller, or model fuel exhaustion of the poll
loop (no counterpart in the code; excluded by hypotheses). -/
inductive Result where
  | normal
  | raised (e : Exc)
  | fuelOut
  deriving Repr, DecidableEq

/-- Observable effects of one call, in order.  `postPlaceholder` is the
"Thinking..." `say` (line 79), `renderFinal viaEdit text ok` is the single
final rendering call: `chat_update` on the placeholder when `viaEdit`,
else a fresh `say`; `ok` records whether the transport call succeeded.
The remaining constructors are the OpenAI API calls (recorded as attempts,
whether or not the call succeeds). -/
inductive Effect where
  | postPlaceholder (ok : Bool)
  | renderFinal (viaEdit : Bool) (text : String) (ok : Bool)
  | createSession
  | appendMessage (sessionId prompt : String)
  | startRun (sessionId : String)
  | pollRun (sessionId runId : String)
  | cancelRun (sessionId runId : String)
  | listMsgs (sessionId : String)
  deriving Repr, DecidableEq

/-- Results of every external call one execution can make.
`elapsedAt i` is `time.time() - start_time` as observed at the `i`-th
evaluation of the poll-loop timeout test; `runsRetrieve i` is the `i`-th
`runs.retrieve`.  Slack calls fail only with `SlackApiError`, OpenAI calls
only with `OpenAIError`, matching the libraries' error types. -/
structure Env where
  sayThinking : Except String String
  threadsCreate : Except String String
  messagesCreate : Except String Unit
  runsCreate : Except String Run
  runsRetrieve : Nat → Except String Run
  runsCancel : Except String Unit
  messagesList : Except String (List Msg)
  chatUpdate : Except String Unit
  sayFinal : Except String Unit
  elapsedAt : Nat → Nat

def excOk {α : Type} : Except String α → Bool
  | .ok _ => true
  | .error _ => false

/-! ## Constants (the literal strings and numbers of the code) -/

def RUN_TIMEOUT_S : Nat := 120

def configErrText : String :=
  "Sorry, the OpenAI connection or Assistant is not configured correctly. Please check server logs."

def fallbackText : String :=
  "I processed your request, but didn\x27t generate a text response."

def timeoutReplyText : String :=
  "Sorry, the request took too long to process."

def requiresActionText : String :=
  "Sorry, my current task requires actions I can\x27t perform yet."

def openaiErrText (msg : String) : String :=
  "Sorry, I encountered an error with the OpenAI API: " ++ msg

/-- Lines 163-169: generic status description, overridden by
`run.last_error` when present. -/
def failedText (r : Run) : String :=
  match r.lastError with
  | some (code, msg) => "Run failed: " ++ code ++ " - " ++ msg
  | none => "Assistant Run " ++ r.id ++ " ended with status: " ++ r.status

/-! ## The conversation map (`slack_thread_to_openai_thread`) -/

/-- Python `dict` membership / subscript, on an association list where the
most recent binding shadows older ones (dict assignment is modelled by
prepending). -/
def lookupKey (m : List (String × String)) (k : String) : Option String :=
  match m with
  | [] => none
  | (a, b) :: t => if a == k then some b else lookupKey t k

/-- Lines 92-99: return the mapped OpenAI thread id if the Slack thread is
known, else call `threads.create`, store the new id under the key and
return it.  A failing create raises out of this step. -/
def resolveSession (env : Env) (map : List (String × String)) (key : String) :
    List Effect × List (String × String) × Except String String :=
  match lookupKey map key with
  | some tid => ([], map, .ok tid)
  | none =>
    match env.threadsCreate with
    | .error m => ([.createSession], map, .error m)
    | .ok tid => ([.createSession], (key, tid) :: map, .ok tid)

/-! ## Response extraction (lines 134-148) -/

/-- Lines 137-148, translated clause by clause: filter the
newest-first message list to this run's assistant messages; if none, the
fixed fallback; else the flat generator
`"\n".join(block.text.value for msg in reversed(...) for block in
msg.content if block.type == 'text')` followed by `.strip()`. -/
def extractResponse (msgs : List Msg) (runId : String) : String :=
  let assistant_messages := msgs.filter (fun m => m.run_id == runId && m.role == "assistant")
  if assistant_messages.isEmpty then
    fallbackText
  else
    (String.intercalate "\n"
      (((assistant_messages.reverse).flatMap (fun m => m.content)).filterMap
        (fun b => if b.type == "text" then some b.text else none))).trim

/-! ## The poll loop (lines 119-128) -/

def pendingSet : List String := ["queued", "in_progress", "cancelling"]

/-- Result of the poll loop: the run left the pending set, or an exception
was raised inside the loop (timeout after a successful cancel; the cancel
call's own `OpenAIError` when the unguarded cancel fails; a failing
retrieve), or the model ran out of fuel. -/
inductive PollRes where
  | terminal (r : Run)
  | exc (e : Exc)
  | fuelOut
  deriving Repr, DecidableEq

/-- Lines 120-128.  At check `i`: if the status is pending and the elapsed
time exceeds the budget, call `runs.cancel` — when it succeeds, raise
`TimeoutError("Assistant run timed out.")`; when it raises, that
`OpenAIError` propagates instead (the cancel is not guarded in the code).
Otherwise sleep and refresh the run via `runs.retrieve`. -/
def pollLoop (env : Env) (tid : String) : Nat → Run → Nat → List Effect × PollRes
  | 0, r, i =>
    if pendingSet.contains r.status then
      if env.elapsedAt i > RUN_TIMEOUT_S then
        match env.runsCancel with
        | .ok _ => ([.cancelRun tid r.id], .exc (.timeoutExc "Assistant run timed out."))
        | .error m => ([.cancelRun tid r.id], .exc (.openai m))
      else ([], .fuelOut)
    else ([], .terminal r)
  | f + 1, r, i =>
    if pendingSet.contains r.status then
      if env.elapsedAt i > RUN_TIMEOUT_S then
        match env.runsCancel with
        | .ok _ => ([.cancelRun tid r.id], .exc (.timeoutExc "Assistant run timed out."))
        | .error m => ([.cancelRun tid r.id], .exc (.openai m))
      else
        match env.runsRetrieve i with
        | .error m => ([.pollRun tid r.id], .exc (.openai m))
        | .ok r2 =>
          let p := pollLoop env tid f r2 (i + 1)
          (.pollRun tid r.id :: p.1, p.2)
    else ([], .terminal r)

/-! ## The body of the big `try` (lines 91-171) -/

/-- How the `try` body ends: normal completion, a raised exception
(to be dispatched to the `except` clauses), or fuel exhaustion. -/
inductive BodyRes where
  | ok
  | exc (e : Exc)
  | fuelOut
  deriving Repr, DecidableEq

/-- Lines 152-155 (and the same two-line pattern in every other branch):
edit the placeholder when a handle was recorded, else post fresh.  Returns
the recorded effect and the transport call's result. -/
def renderReply (env : Env) (handle : Option String) (text : String) :
    Effect × Except String Unit :=
  match handle with
  | some _ => (.renderFinal true text (excOk env.chatUpdate), env.chatUpdate)
  | none => (.renderFinal false text (excOk env.sayFinal), env.sayFinal)

/-- Lines 91-171: resolve the session, append the user message, create the
run, poll to a terminal state, and render according to the terminal
status.  A `SlackApiError` from the rendering call inside this body is
raised (to be caught by line 184's handler). -/
def tryBody (env : Env) (map : List (String × String)) (key prompt : String)
    (handle : Option String) (fuel : Nat) :
    List Effect × List (String × String) × BodyRes :=
  match resolveSession env map key with
  | (es, m2, .error m) => (es, m2, .exc (.openai m))
  | (es, m2, .ok tid) =>
    match env.messagesCreate with
    | .error m => (es ++ [.appendMessage tid prompt], m2, .exc (.openai m))
    | .ok _ =>
      match env.runsCreate with
      | .error m => (es ++ [.appendMessage tid prompt, .startRun tid], m2, .exc (.openai m))
      | .ok r0 =>
        let p := pollLoop env tid fuel r0 0
        let pre := es ++ [.appendMessage tid prompt, .startRun tid] ++ p.1
        match p.2 with
        | .fuelOut => (pre, m2, .fuelOut)
        | .exc e => (pre, m2, .exc e)
        | .terminal r =>
          if r.status == "completed" then
            match env.messagesList with
            | .error m => (pre ++ [.listMsgs tid], m2, .exc (.openai m))
            | .ok msgs =>
              let rr := renderReply env handle (extractResponse msgs r.id)
              (pre ++ [.listMsgs tid, rr.1], m2,
                match rr.2 with | .ok _ => .ok | .error m => .exc (.slack m))
          else if r.status == "requires_action" then
            let rr := renderReply env handle requiresActionText
            (pre ++ [rr.1], m2,
              match rr.2 with | .ok _ => .ok | .error m => .exc (.slack m))
          else
            let rr := renderReply env handle (failedText r)
            (pre ++ [rr.1], m2,
              match rr.2 with | .ok _ => .ok | .error m => .exc (.slack m))

/-- Lines 64-195, the whole of `process_with_assistant`.
`configured` is `openai_client and OPENAI_ASSISTANT_ID` (lines 66-73: when
false, report the configuration error with a fresh `say`, its
`SlackApiError` caught, and return — nothing else happens).
Then the placeholder post (76-84, all exceptions caught, handle recorded
only on success), the `try` body, and the `except` clauses (173-195):
`OpenAIError` and `TimeoutError` render an error reply — unguarded, so a
`SlackApiError` raised by that rendering call escapes to the caller;
`SlackApiError` is logged only.  (The code's final `except Exception`
branch is unreachable in this model: every modelled exception is one of
the three above.) -/
def processWithAssistant (configured : Bool) (env : Env)
    (map : List (String × String)) (key prompt : String) (fuel : Nat) :
    List Effect × List (String × String) × Result :=
  if configured then
    let ph :=
      match env.sayThinking with
      | .ok ts => ([Effect.postPlaceholder true], some ts)
      | .error _ => ([Effect.postPlaceholder false], (none : Option String))
    match tryBody env map key prompt ph.2 fuel with
    | (es, m2, .ok) => (ph.1 ++ es, m2, .normal)
    | (es, m2, .fuelOut) => (ph.1 ++ es, m2, .fuelOut)
    | (es, m2, .exc (.slack _)) => (ph.1 ++ es, m2, .normal)
    | (es, m2, .exc (.openai m)) =>
      let rr := renderReply env ph.2 (openaiErrText m)
      (ph.1 ++ es ++ [rr.1], m2,
        match rr.2 with | .ok _ => .normal | .error sm => .raised (.slack sm))
    | (es, m2, .exc (.timeoutExc _)) =>
      let rr := renderReply env ph.2 timeoutReplyText
      (ph.1 ++ es ++ [rr.1], m2,
        match rr.2 with | .ok _ => .normal | .error sm => .raised (.slack sm))
  else
    ([.renderFinal false configErrText (excOk env.sayFinal)], map, .normal)

/-! ## Trace observations -/

/-- The texts of the final render attempts, in order. -/
def finalTexts (es : List Effect) : List String :=
  es.filterMap (fun e => match e with | .renderFinal _ t _ => some t | _ => none)

/-- The `viaEdit` flags of the final render attempts, in order. -/
def renderFlags (es : List Effect) : List Bool :=
  es.filterMap (fun e => match e with | .renderFinal v _ _ => some v | _ => none)

/-- Number of final render attempts that actually succeeded (visible
replies beyond the placeholder). -/
def visibleCount (es : List Effect) : Nat :=
  (es.filter (fun e => match e with | .renderFinal _ _ true => true | _ => false)).length

/-- Number of `runs.cancel` calls in the trace. -/
def cancelCount (es : List Effect) : Nat :=
  (es.filter (fun e => match e with | .cancelRun _ _ => true | _ => false)).length

/-- Number of `threads.create` calls in the trace. -/
def createCount (es : List Effect) : Nat :=
  (es.filter (fun e => match e with | .createSession => true | _ => false)).length

/-! ## `clean_mention` (lines 55-61)

Text is modelled as `List Char`.  The anchored regex
`^\s*<@{bot_user_id}>\s*` (the bot user id is an alphanumeric Slack id,
so it stands for itself in the pattern) matches a maximal run of leading
whitespace, the literal mention token, and a maximal run of following
whitespace; `re.sub` deletes that span and `.strip()` trims the result.
`if bot_user_id:` is Python truthiness: `None` and `""` both take the
fallback branch `text.strip()`. -/

def dropLeadingWs : List Char → List Char
  | [] => []
  | c :: t => if c.isWhitespace then dropLeadingWs t else c :: t

/-- Python `str.strip()`: drop leading whitespace, then trailing
whitespace (via reversal). -/
def trimText (l : List Char) : List Char :=
  (dropLeadingWs (dropLeadingWs l).reverse).reverse

/-- The literal token `<@{bot_user_id}>`. -/
def mentionToken (b : List Char) : List Char :=
  '<' :: '@' :: (b ++ ['>'])

/-- Lines 55-61. -/
def cleanMention (text : List Char) (bot_user_id : Option (List Char)) : List Char :=
  match bot_user_id with
  | none => trimText text
  | some b =>
    if b = [] then trimText text
    else
      let t1 := dropLeadingWs text
      if (mentionToken b).isPrefixOf t1 then
        trimText (dropLeadingWs (t1.drop (mentionToken b).length))
      else trimText text

/-- Python `str.strip()` on a `String`, via the character list. -/
def pyStrip (s : String) : String := String.mk (trimText s.data)

/-- Python `str.startswith` on a `String`: the argument is a literal
character prefix of the receiver. -/
def pyStartsWith (s p : String) : Bool := p.data.isPrefixOf s.data

/-! ## `handle_message_events` (lines 229-277) -/

/-- The fields of a Slack `message` event the handler reads.  `Option`
models presence in the event dict; absent string fields read through
`.get` come back as `None` (or the supplied default). -/
structure MessageEvent where
  subtype : Option String
  user : Option String
  bot_id : Option String
  text : Option String
  channel_type : Option String
  channel : Option String
  ts : String
  thread_ts : Option String
  deriving Repr, DecidableEq

/-- Python truthiness of an optional string: `None` and `""` are falsy. -/
def truthy : Option String → Bool
  | none => false
  | some s => !(s == "")

def supportedChannelTypes : List String := ["channel", "group", "im", "mpim"]

/-- Lines 229-277: the chain of early returns, then the orchestrator
invocation.  Returns `some (prompt, thread_key)` when
`process_with_assistant` is invoked, `none` when the event is rejected.
`botUserId` is the value of `BOT_USER_ID` (assumed configured). -/
def handle_message_events (botUserId : String) (m : MessageEvent) :
    Option (String × String) :=
  -- line 238: subtype present and not "thread_broadcast"
  if !(m.subtype == none) && !(m.subtype == some "thread_broadcast") then none
  -- line 244: from the bot itself, or any truthy bot_id
  else if m.user == some botUserId || truthy m.bot_id then none
  -- line 249: text starts (after strip) with the self-mention token
  else if pyStartsWith (pyStrip (m.text.getD "")) ("<@" ++ botUserId ++ ">") then none
  -- line 258: channel_type not among the supported kinds
  else if !(supportedChannelTypes.contains ((m.channel_type).getD "")) then none
  else
    -- lines 263-271
    let prompt := m.text.getD ""
    if prompt == "" || !(truthy m.user) then none
    else some (prompt, m.thread_ts.getD m.ts)

/-! ## Interleaving model of the unsynchronized map access (lines 92-99)

`slack_thread_to_openai_thread` is a plain module-level dict and the
handlers run on Bolt's listener thread pool with no lock.  The dict
lookup (line 92) and the dict store (line 99) are each atomic under the
GIL, but `threads.create()` (line 97) is a blocking network call between
them, so two handler threads for the same key can interleave at these
three points.  Each task is lines 92-99 cut at those boundaries. -/

/-- Program counter of one handler task inside lines 92-99. -/
inductive TaskPc where
  | start
  | missed
  | madeSession (tid : String)
  | done (tid : String)
  deriving Repr, DecidableEq

/-- Shared state: the dict, plus the number of `threads.create` calls
completed (each returning a distinct fresh id). -/
structure RaceState where
  map : List (String × String)
  nCreated : Nat
  pcA : TaskPc
  pcB : TaskPc
  deriving Repr, DecidableEq

def freshTid (n : Nat) : String := "T" ++ toString n

/-- One atomic step of a task at `pc`: the dict membership test + read
(lines 92-93), the `threads.create` call (97-98), the dict store (99). -/
def taskStep (key : String) (map : List (String × String)) (n : Nat) (pc : TaskPc) :
    List (String × String) × Nat × TaskPc :=
  match pc with
  | .start =>
    match lookupKey map key with
    | some tid => (map, n, .done tid)
    | none => (map, n, .missed)
  | .missed => (map, n + 1, .madeSession (freshTid n))
  | .madeSession tid => ((key, tid) :: map, n, .done tid)
  | .done tid => (map, n, .done tid)

/-- Advance task A (`who = true`) or task B by one atomic step. -/
def raceStep (key : String) (s : RaceState) (who : Bool) : RaceState :=
  if who then
    let r := taskStep key s.map s.nCreated s.pcA
    { s with map := r.1, nCreated := r.2.1, pcA := r.2.2 }
  else
    let r := taskStep key s.map s.nCreated s.pcB
    { s with map := r.1, nCreated := r.2.1, pcB := r.2.2 }

/-- Run a schedule (a list of task choices) from a state. -/
def runSched (key : String) : List Bool → RaceState → RaceState
  | [], s => s
  | w :: ws, s => runSched key ws (raceStep key s w)

/-! ## Trace-observation lemmas -/

@[simp] lemma finalTexts_nil : finalTexts [] = [] := rfl

@[simp] lemma finalTexts_append (a b : List Effect) :
    finalTexts (a ++ b) = finalTexts a ++ finalTexts b := by
  simp [finalTexts]

@[simp] lemma finalTexts_cons (e : Effect) (es : List Effect) :
    finalTexts (e :: es) =
      (match e with | .renderFinal _ t _ => [t] | _ => []) ++ finalTexts es := by
  cases e <;> simp [finalTexts]

@[simp] lemma renderFlags_nil : renderFlags [] = [] := rfl

@[simp] lemma renderFlags_append (a b : List Effect) :
    renderFlags (a ++ b) = renderFlags a ++ renderFlags b := by
  simp [renderFlags]

@[simp] lemma renderFlags_cons (e : Effect) (es : List Effect) :
    renderFlags (e :: es) =
      (match e with | .renderFinal v _ _ => [v] | _ => []) ++ renderFlags es := by
  cases e <;> simp [renderFlags]

@[simp] lemma cancelCount_nil : cancelCount [] = 0 := rfl

@[simp] lemma cancelCount_append (a b : List Effect) :
    cancelCount (a ++ b) = cancelCount a + cancelCount b := by
  simp [cancelCount]

@[simp] lemma cancelCount_cons (e : Effect) (es : List Effect) :
    cancelCount (e :: es) =
      (match e with | .cancelRun _ _ => 1 | _ => 0) + cancelCount es := by
  cases e <;> simp [cancelCount, Nat.add_comm]

/-- The session-resolution step performs no rendering and no cancel. -/
lemma resolveSession_trace (env : Env) (map : List (String × String)) (key : String) :
    finalTexts (resolveSession env map key).1 = []
    ∧ renderFlags (resolveSession env map key).1 = []
    ∧ cancelCount (resolveSession env map key).1 = 0 := by
  unfold resolveSession
  cases lookupKey map key with
  | some tid => simp
  | none => cases env.threadsCreate <;> simp

/-! ## A concrete all-succeeding environment (used by witnesses) -/

/-- A run that is immediately `completed`. -/
def doneRun : Run := ⟨"R1", "completed", none⟩

/-- Environment in which every collaborator call succeeds, the run is
immediately completed, and one assistant message with one text block is
returned. -/
def envOk : Env where
  sayThinking := .ok "ts1"
  threadsCreate := .ok "T1"
  messagesCreate := .ok ()
  runsCreate := .ok doneRun
  runsRetrieve := fun _ => .ok doneRun
  runsCancel := .ok ()
  messagesList := .ok [⟨"R1", "assistant", [⟨"text", "hi there"⟩]⟩]
  chatUpdate := .ok ()
  sayFinal := .ok ()
  elapsedAt := fun _ => 0

/-! ## Lemmas about whitespace trimming -/

lemma dropLeadingWs_ws_append (ws l : List Char)
    (h : ∀ c ∈ ws, c.isWhitespace = true) :
    dropLeadingWs (ws ++ l) = dropLeadingWs l := by
  induction ws with
  | nil => simp
  | cons c t ih =>
    have hc : c.isWhitespace = true := h c (by simp)
    simp only [List.cons_append, dropLeadingWs, hc, if_true]
    exact ih (fun d hd => h d (by simp [hd]))

lemma dropLeadingWs_not_ws (c : Char) (l : List Char)
    (h : c.isWhitespace = false) :
    dropLeadingWs (c :: l) = c :: l := by
  simp [dropLeadingWs, h]

lemma dropLeadingWs_idem (l : List Char) :
    dropLeadingWs (dropLeadingWs l) = dropLeadingWs l := by
  induction l with
  | nil => rfl
  | cons c t ih =>
    by_cases hc : c.isWhitespace = true
    · simp [dropLeadingWs, hc, ih]
    · simp only [Bool.not_eq_true] at hc
      simp [dropLeadingWs, hc]

lemma trimText_dropLeadingWs (l : List Char) :
    trimText (dropLeadingWs l) = trimText l := by
  unfold trimText
  rw [dropLeadingWs_idem]

/-! ## The completed-outcome text as claim C1 words it -/

/-- Claim C1's construction, stated independently of the code: from the
newest-first message list keep only this run's assistant-authored
messages; if none are left, the fixed fallback string; otherwise reverse
them to chronological order, take each message's text-typed blocks'
values in order, join them all with newline, and trim. -/
def claimCompletedText (descMsgs : List Msg) (runId : String) : String :=
  let kept := descMsgs.filter (fun m => m.run_id == runId && m.role == "assistant")
  if kept = [] then fallbackText
  else
    (String.intercalate "\n"
      ((kept.reverse.map (fun m =>
        (m.content.filter (fun bl => bl.type == "text")).map
          (fun bl => bl.text))).flatten)).trim

lemma blocks_texts (content : List ContentBlock) :
    content.filterMap (fun b => if b.type == "text" then some b.text else none)
      = (content.filter (fun bl => bl.type == "text")).map (fun bl => bl.text) := by
  induction content with
  | nil => rfl
  | cons b t ih =>
    rw [List.filterMap_cons, List.filter_cons]
    cases h : (b.type == "text")
    · simp only [h, Bool.false_eq_true, if_false]
      exact ih
    · simp only [h, if_true, List.map_cons]
      rw [ih]

lemma flatMap_filterMap_blocks (l : List Msg) :
    (l.flatMap (fun m => m.content)).filterMap
        (fun b => if b.type == "text" then some b.text else none)
      = (l.map (fun m => (m.content.filter (fun bl => bl.type == "text")).map
          (fun bl => bl.text))).flatten := by
  induction l with
  | nil => rfl
  | cons m t ih =>
    rw [List.flatMap_cons, List.filterMap_append, List.map_cons, List.flatten_cons,
      blocks_texts, ih]

/-- The code's extraction (lines 137-148) computes exactly the text claim
C1 describes. -/
lemma extractResponse_eq_claim (msgs : List Msg) (runId : String) :
    extractResponse msgs runId = claimCompletedText msgs runId := by
  unfold extractResponse claimCompletedText
  by_cases h : (msgs.filter fun m => m.run_id == runId && m.role == "assistant") = []
  · simp [h]
  · have hie : (msgs.filter fun m => m.run_id == runId && m.role == "assistant").isEmpty
        = false := by
      simp [List.isEmpty_iff, h]
    simp only [hie, Bool.false_eq_true, if_false, h, if_neg, ite_false]
    rw [flatMap_filterMap_blocks]

/-- The poll loop renders nothing and never raises a Slack error. -/
lemma pollLoop_shape (env : Env) (tid : String) :
    ∀ (fuel : Nat) (r : Run) (i : Nat),
      finalTexts (pollLoop env tid fuel r i).1 = []
      ∧ renderFlags (pollLoop env tid fuel r i).1 = []
      ∧ ∀ m, (pollLoop env tid fuel r i).2 ≠ .exc (.slack m) := by
  intro fuel
  induction fuel with
  | zero =>
    intro r i
    unfold pollLoop
    split
    · split
      · cases env.runsCancel <;> simp
      · simp
    · simp
  | succ f ih =>
    intro r i
    unfold pollLoop
    split
    · split
      · cases env.runsCancel <;> simp
      · cases henv : env.runsRetrieve i with
        | error m => simp [henv]
        | ok r2 =>
          obtain ⟨ht, hf, hs⟩ := ih r2 (i + 1)
          simp only [henv]
          refine ⟨by simp [ht], by simp [hf], ?_⟩
          simpa using hs
    · simp

/-- If the run stays pending at every check before `k`, the elapsed time
stays within budget before check `k` and exceeds it at check `k`, then the
poll loop issues exactly one cancel, renders nothing, and raises the
timeout exception when the cancel succeeds — but the cancel call's own
`OpenAIError` when it fails. -/
lemma pollLoop_timeout (env : Env) (tid : String) :
    ∀ (k i fuel : Nat) (r : Run),
      pendingSet.contains r.status = true →
      (∀ j, j < k → ∃ rj, env.runsRetrieve (i + j) = .ok rj
          ∧ pendingSet.contains rj.status = true) →
      (∀ j, j < k → env.elapsedAt (i + j) ≤ RUN_TIMEOUT_S) →
      env.elapsedAt (i + k) > RUN_TIMEOUT_S →
      k ≤ fuel →
      cancelCount (pollLoop env tid fuel r i).1 = 1
      ∧ finalTexts (pollLoop env tid fuel r i).1 = []
      ∧ (pollLoop env tid fuel r i).2
          = .exc (match env.runsCancel with
              | .ok _ => .timeoutExc "Assistant run timed out."
              | .error m => .openai m) := by
  intro k
  induction k with
  | zero =>
    intro i fuel r hp _ _ htk _
    have htk2 : env.elapsedAt i > RUN_TIMEOUT_S := by simpa using htk
    cases fuel <;>
      · unfold pollLoop
        rw [if_pos hp, if_pos htk2]
        cases env.runsCancel <;> simp
  | succ k ih =>
    intro i fuel r hp hret htime htk hf
    cases fuel with
    | zero => omega
    | succ f =>
      obtain ⟨r1, hr1, hp1⟩ := hret 0 (by omega)
      have hr1' : env.runsRetrieve i = .ok r1 := by simpa using hr1
      have ht0 : ¬ env.elapsedAt i > RUN_TIMEOUT_S := by
        have := htime 0 (by omega)
        simp only [Nat.add_zero] at this
        omega
      obtain ⟨hc, hft, hre⟩ := ih (i + 1) f r1 hp1
        (fun j hj => by
          have h2 := hret (j + 1) (by omega)
          have hidx : i + (j + 1) = i + 1 + j := by omega
          rw [hidx] at h2
          exact h2)
        (fun j hj => by
          have h2 := htime (j + 1) (by omega)
          have hidx : i + (j + 1) = i + 1 + j := by omega
          rw [hidx] at h2
          exact h2)
        (by
          have hidx : i + (k + 1) = i + 1 + k := by omega
          rw [hidx] at htk
          exact htk)
        (by omega)
      unfold pollLoop
      rw [if_pos hp, if_neg ht0, hr1']
      simp only [cancelCount_cons, finalTexts_cons]
      exact ⟨by simpa using hc, by simpa using hft, hre⟩

/-! ## Admission predicates for claim C8 -/

/-- The admission checks exactly as claim C8 enumerates them: subtype
absent or `thread_broadcast`, sender not the bot itself, text does not
begin with the self-mention pattern, supported conversation type, and
text and sender identifier present. -/
def c8Admits (botUserId : String) (m : MessageEvent) : Bool :=
  (m.subtype == none || m.subtype == some "thread_broadcast")
  && !(m.user == some botUserId)
  && !(pyStartsWith (pyStrip (m.text.getD "")) ("<@" ++ botUserId ++ ">"))
  && supportedChannelTypes.contains ((m.channel_type).getD "")
  && !(m.text.getD "" == "")
  && truthy m.user

/-- C8's check list amended by the one check the counterexample forces:
the event must also carry no (truthy) bot-origin flag (line 244 rejects
every bot-authored message, not only the bot itself). -/
def c8AdmitsAmended (botUserId : String) (m : MessageEvent) : Bool :=
  c8Admits botUserId m && !(truthy m.bot_id)

/-- Every terminal path of the try body renders at most once: either no
render attempt together with an OpenAI/timeout exception or fuel
exhaustion, or exactly one render attempt (an edit exactly when a
placeholder handle exists) together with normal completion or a Slack
error raised by that very render. -/
lemma tryBody_shape (env : Env) (map : List (String × String))
    (key prompt : String) (handle : Option String) (fuel : Nat) :
    (renderFlags (tryBody env map key prompt handle fuel).1 = []
      ∧ ((∃ m, (tryBody env map key prompt handle fuel).2.2 = .exc (.openai m))
         ∨ (∃ m, (tryBody env map key prompt handle fuel).2.2 = .exc (.timeoutExc m))
         ∨ (tryBody env map key prompt handle fuel).2.2 = .fuelOut))
    ∨ (renderFlags (tryBody env map key prompt handle fuel).1 = [handle.isSome]
      ∧ ((tryBody env map key prompt handle fuel).2.2 = .ok
         ∨ ∃ m, (tryBody env map key prompt handle fuel).2.2 = .exc (.slack m))) := by
  have hresT := resolveSession_trace env map key
  rcases hres : resolveSession env map key with ⟨es, m2, res⟩
  rw [hres] at hresT
  have hesF : renderFlags es = [] := by simpa using hresT.2.1
  cases res with
  | error m =>
    left
    simp [tryBody, hres, hesF]
  | ok tid =>
    cases hmsg : env.messagesCreate with
    | error m => left; simp [tryBody, hres, hmsg, hesF]
    | ok u =>
      cases hrun : env.runsCreate with
      | error m => left; simp [tryBody, hres, hmsg, hrun, hesF]
      | ok r0 =>
        obtain ⟨hpt, hpf, hps⟩ := pollLoop_shape env tid fuel r0 0
        rcases hp : pollLoop env tid fuel r0 0 with ⟨pes, pres⟩
        rw [hp] at hpf hps
        simp only at hpf hps
        cases pres with
        | fuelOut => left; simp [tryBody, hres, hmsg, hrun, hp, hesF, hpf]
        | exc e =>
          cases e with
          | openai m => left; simp [tryBody, hres, hmsg, hrun, hp, hesF, hpf]
          | timeoutExc m => left; simp [tryBody, hres, hmsg, hrun, hp, hesF, hpf]
          | slack m => exact absurd rfl (hps m)
        | terminal r =>
          by_cases hst : (r.status == "completed") = true
          · cases hlist : env.messagesList with
            | error m =>
              left
              simp [tryBody, hres, hmsg, hrun, hp, hst, hlist, hesF, hpf]
            | ok msgs =>
              right
              cases handle with
              | some ts =>
                cases hcu : env.chatUpdate <;>
                  simp [tryBody, hres, hmsg, hrun, hp, hst, hlist, hesF, hpf,
                    renderReply, hcu]
              | none =>
                cases hsf : env.sayFinal <;>
                  simp [tryBody, hres, hmsg, hrun, hp, hst, hlist, hesF, hpf,
                    renderReply, hsf]
          · right
            by_cases hra : (r.status == "requires_action") = true
            · cases handle with
              | some ts =>
                cases hcu : env.chatUpdate <;>
                  simp [tryBody, hres, hmsg, hrun, hp, hst, hra, hesF, hpf,
                    renderReply, hcu]
              | none =>
                cases hsf : env.sayFinal <;>
                  simp [tryBody, hres, hmsg, hrun, hp, hst, hra, hesF, hpf,
                    renderReply, hsf]
            · cases handle with
              | some ts =>
                cases hcu : env.chatUpdate <;>
                  simp [tryBody, hres, hmsg, hrun, hp, hst, hra, hesF, hpf,
                    renderReply, hcu]
              | none =>
                cases hsf : env.sayFinal <;>
                  simp [tryBody, hres, hmsg, hrun, hp, hst, hra, hesF, hpf,
                    renderReply, hsf]

/-- Environment in which the run stays `in_progress` and the clock is
already past the timeout budget at the first check. -/
def c2Env : Env :=
  { envOk with
      runsCreate := .ok ⟨"R1", "in_progress", none⟩
      runsRetrieve := fun _ => .ok ⟨"R1", "in_progress", none⟩
      elapsedAt := fun _ => 121 }

/-! ## Claim theorems -/

/-- C3: for a conversation key `K` not yet in the conversation map, the
resolve-or-create step (lines 92-99) performs exactly one session creation
and stores the new id under `K`; every later sequential execution with the
same key returns the stored id and performs no further creation. -/
theorem C3_resolve_or_create_idempotent (env env2 : Env)
    (map : List (String × String)) (K tid : String)
    (h1 : lookupKey map K = none) (h2 : env.threadsCreate = .ok tid) :
    resolveSession env map K = ([.createSession], (K, tid) :: map, .ok tid)
    ∧ lookupKey ((K, tid) :: map) K = some tid
    ∧ ∀ (map2 : List (String × String)) (t : String), lookupKey map2 K = some t →
        resolveSession env2 map2 K = ([], map2, .ok t) := by
  refine ⟨?_, ?_, ?_⟩
  · simp [resolveSession, h1, h2]
  · simp [lookupKey]
  · intro map2 t h
    simp [resolveSession, h]

/-- Witness for C3 at a concrete unmapped key. -/
theorem C3_witness :
    lookupKey [] "k" = none ∧ envOk.threadsCreate = .ok "T1" ∧
    (resolveSession envOk [] "k" = ([.createSession], [("k", "T1")], .ok "T1")
     ∧ lookupKey [("k", "T1")] "k" = some "T1"
     ∧ ∀ (map2 : List (String × String)) (t : String), lookupKey map2 "k" = some t →
        resolveSession envOk map2 "k" = ([], map2, .ok t)) :=
  ⟨rfl, rfl, C3_resolve_or_create_idempotent envOk envOk [] "k" "T1" rfl rfl⟩

/-- C10: with the assistant client or assistant id unconfigured
(lines 66-73), the call issues exactly one post — the configuration-error
reply, threaded, with no placeholder — returns normally, leaves the
conversation map untouched, and makes no session/message/run/cancel/list
call (the trace is exactly that one post). -/
theorem C10_unconfigured_frame (env : Env) (map : List (String × String))
    (key prompt : String) (fuel : Nat) :
    processWithAssistant false env map key prompt fuel
      = ([.renderFinal false configErrText (excOk env.sayFinal)], map, .normal) := by
  simp [processWithAssistant]

/-- C4: lines 92-99 run with no lock, so two handler threads for the same
unmapped key can interleave read/create/write; under the schedule
A-read, B-read, A-create, A-write, B-create, B-write both tasks miss,
both call `threads.create` (two sessions), and the tasks finish holding
different session ids — refuting "at most one creation is attempted /
both requests use one session". -/
theorem C4_unsynchronized_duplicate_creation :
    (runSched "k" [true, false, true, true, false, false]
        ⟨[], 0, .start, .start⟩).nCreated = 2
    ∧ (runSched "k" [true, false, true, true, false, false]
        ⟨[], 0, .start, .start⟩).pcA = .done "T0"
    ∧ (runSched "k" [true, false, true, true, false, false]
        ⟨[], 0, .start, .start⟩).pcB = .done "T1"
    ∧ ("T0" : String) ≠ "T1" :=
  ⟨rfl, rfl, rfl, by decide⟩

/-- C9: any generic message event whose `bot_id` is truthy is rejected by
`handle_message_events` (line 244), even when its `user` differs from the
bot's own user id. -/
theorem C9_bot_messages_suppressed (botUserId : String) (m : MessageEvent)
    (h : truthy m.bot_id = true) :
    handle_message_events botUserId m = none := by
  unfold handle_message_events
  split
  · rfl
  · simp [h]

/-- C1: whenever the run reaches terminal status `completed` and the
message listing succeeds, the call renders exactly one final text, equal
to claim C1's construction (newest-first fetch, keep this run's
assistant messages, reverse to chronological order, join the text-typed
blocks with newline, trim, fixed fallback when the kept set is empty),
and the call returns normally. -/
theorem C1_completed_outcome_text (env : Env) (map m2 : List (String × String))
    (key prompt tid : String) (es pes : List Effect) (r0 r : Run)
    (msgs : List Msg) (fuel : Nat)
    (hres : resolveSession env map key = (es, m2, .ok tid))
    (hmsg : env.messagesCreate = .ok ())
    (hrun : env.runsCreate = .ok r0)
    (hpoll : pollLoop env tid fuel r0 0 = (pes, .terminal r))
    (hst : r.status = "completed")
    (hlist : env.messagesList = .ok msgs) :
    finalTexts (processWithAssistant true env map key prompt fuel).1
      = [claimCompletedText msgs r.id]
    ∧ (processWithAssistant true env map key prompt fuel).2.2 = .normal := by
  have hresT := resolveSession_trace env map key
  rw [hres] at hresT
  have hpollT := pollLoop_shape env tid fuel r0 0
  rw [hpoll] at hpollT
  have hstb : (r.status == "completed") = true := by simp [hst]
  cases hth : env.sayThinking with
  | ok ts =>
    cases hcu : env.chatUpdate with
    | ok u =>
      simp [processWithAssistant, tryBody, hres, hmsg, hrun, hpoll, hstb, hlist,
        renderReply, hth, hcu, hresT.1, hpollT.1, extractResponse_eq_claim]
    | error sm =>
      simp [processWithAssistant, tryBody, hres, hmsg, hrun, hpoll, hstb, hlist,
        renderReply, hth, hcu, hresT.1, hpollT.1, extractResponse_eq_claim]
  | error em =>
    cases hsf : env.sayFinal with
    | ok u =>
      simp [processWithAssistant, tryBody, hres, hmsg, hrun, hpoll, hstb, hlist,
        renderReply, hth, hsf, hresT.1, hpollT.1, extractResponse_eq_claim]
    | error sm =>
      simp [processWithAssistant, tryBody, hres, hmsg, hrun, hpoll, hstb, hlist,
        renderReply, hth, hsf, hresT.1, hpollT.1, extractResponse_eq_claim]

/-- Witness for C1: the all-succeeding environment with an immediately
completed run and one assistant message. -/
theorem C1_witness :
    resolveSession envOk [] "k" = ([.createSession], [("k", "T1")], .ok "T1")
    ∧ envOk.messagesCreate = .ok ()
    ∧ envOk.runsCreate = .ok doneRun
    ∧ pollLoop envOk "T1" 5 doneRun 0 = ([], .terminal doneRun)
    ∧ doneRun.status = "completed"
    ∧ envOk.messagesList = .ok [⟨"R1", "assistant", [⟨"text", "hi there"⟩]⟩]
    ∧ (finalTexts (processWithAssistant true envOk [] "k" "hello" 5).1
        = [claimCompletedText [⟨"R1", "assistant", [⟨"text", "hi there"⟩]⟩] doneRun.id]
       ∧ (processWithAssistant true envOk [] "k" "hello" 5).2.2 = .normal) :=
  ⟨rfl, rfl, rfl, rfl, rfl, rfl,
    C1_completed_outcome_text envOk [] [("k", "T1")] "k" "hello" "T1"
      [.createSession] [] doneRun doneRun
      [⟨"R1", "assistant", [⟨"text", "hi there"⟩]⟩] 5
      rfl rfl rfl rfl rfl rfl⟩

/-- C2 amended: when the polled status stays pending until the elapsed
time exceeds the 120-second budget, exactly one cancel request is issued;
the TimedOut outcome (the timeout reply) is produced when that cancel
call succeeds, but when the unguarded cancel call itself raises, the
OpenAI-error reply is rendered instead of the timeout reply. -/
theorem C2_amended_timeout (env : Env) (map m2 : List (String × String))
    (key prompt tid : String) (es : List Effect) (r0 : Run) (k fuel : Nat)
    (hres : resolveSession env map key = (es, m2, .ok tid))
    (hmsg : env.messagesCreate = .ok ())
    (hrun : env.runsCreate = .ok r0)
    (hp0 : pendingSet.contains r0.status = true)
    (hret : ∀ j, j < k → ∃ rj, env.runsRetrieve j = .ok rj
        ∧ pendingSet.contains rj.status = true)
    (htime : ∀ j, j < k → env.elapsedAt j ≤ RUN_TIMEOUT_S)
    (htk : env.elapsedAt k > RUN_TIMEOUT_S)
    (hf : k ≤ fuel) :
    cancelCount (processWithAssistant true env map key prompt fuel).1 = 1
    ∧ finalTexts (processWithAssistant true env map key prompt fuel).1
        = [match env.runsCancel with
           | .ok _ => timeoutReplyText
           | .error m => openaiErrText m] := by
  obtain ⟨hc, hft, hre⟩ := pollLoop_timeout env tid k 0 fuel r0 hp0
    (by simpa using hret) (by simpa using htime) (by simpa using htk) hf
  have hresT := resolveSession_trace env map key
  rw [hres] at hresT
  have hresC : cancelCount es = 0 := by simpa using hresT.2.2
  have hresF : finalTexts es = [] := by simpa using hresT.1
  cases hcan : env.runsCancel with
  | ok u =>
    rw [hcan] at hre
    cases hth : env.sayThinking with
    | ok ts =>
      simp [processWithAssistant, tryBody, hres, hmsg, hrun, hre, renderReply,
        hth, hc, hft, hresC, hresF, hcan]
    | error em =>
      simp [processWithAssistant, tryBody, hres, hmsg, hrun, hre, renderReply,
        hth, hc, hft, hresC, hresF, hcan]
  | error cm =>
    rw [hcan] at hre
    cases hth : env.sayThinking with
    | ok ts =>
      simp [processWithAssistant, tryBody, hres, hmsg, hrun, hre, renderReply,
        hth, hc, hft, hresC, hresF, hcan]
    | error em =>
      simp [processWithAssistant, tryBody, hres, hmsg, hrun, hre, renderReply,
        hth, hc, hft, hresC, hresF, hcan]

/-- Witness for C2 amended: a run that is pending at the first check with
the clock already past the budget, and a succeeding cancel: one cancel
call and the timeout reply. -/
theorem C2_amended_witness :
    resolveSession c2Env [] "k" = ([.createSession], [("k", "T1")], .ok "T1")
    ∧ c2Env.messagesCreate = .ok ()
    ∧ c2Env.runsCreate = .ok ⟨"R1", "in_progress", none⟩
    ∧ pendingSet.contains (Run.mk "R1" "in_progress" none).status = true
    ∧ c2Env.elapsedAt 0 > RUN_TIMEOUT_S
    ∧ (cancelCount (processWithAssistant true c2Env [] "k" "p" 5).1 = 1
       ∧ finalTexts (processWithAssistant true c2Env [] "k" "p" 5).1
           = [timeoutReplyText]) :=
  ⟨rfl, rfl, rfl, by decide, by decide,
    C2_amended_timeout c2Env [] [("k", "T1")] "k" "p" "T1" [.createSession]
      ⟨"R1", "in_progress", none⟩ 0 5 rfl rfl rfl (by decide)
      (fun j hj => absurd hj (by omega)) (fun j hj => absurd hj (by omega))
      (by decide) (by omega)⟩

/-- Counterexample to C2 as stated: same timed-out run but the cancel
call raises; exactly one cancel is still issued, yet the rendered reply
is the OpenAI-error text, not the timeout reply — "produces the TimedOut
outcome regardless of whether the cancel call succeeds or fails" is
false on the code. -/
theorem C2_counterexample :
    cancelCount (processWithAssistant true
        { c2Env with runsCancel := .error "cancel refused" } [] "k" "p" 5).1 = 1
    ∧ finalTexts (processWithAssistant true
        { c2Env with runsCancel := .error "cancel refused" } [] "k" "p" 5).1
        = [openaiErrText "cancel refused"]
    ∧ ¬ (finalTexts (processWithAssistant true
        { c2Env with runsCancel := .error "cancel refused" } [] "k" "p" 5).1
          = [timeoutReplyText]) :=
  ⟨rfl, rfl, by decide⟩

/-- C6 amended: every configured execution (that does not exhaust model
fuel) makes exactly one final render attempt, an in-place edit of the
placeholder exactly when the placeholder post succeeded and a fresh post
otherwise (so placeholder-post failure degrades to a fresh final post);
the reply is visible only if that one transport call succeeds. -/
theorem C6_amended_single_render (env : Env) (map : List (String × String))
    (key prompt : String) (fuel : Nat)
    (hnf : (processWithAssistant true env map key prompt fuel).2.2 ≠ .fuelOut) :
    renderFlags (processWithAssistant true env map key prompt fuel).1
      = [excOk env.sayThinking] := by
  cases hth : env.sayThinking with
  | ok ts =>
    have hshape := tryBody_shape env map key prompt (some ts) fuel
    rcases ht : tryBody env map key prompt (some ts) fuel with ⟨es, m2, res⟩
    rw [ht] at hshape
    simp only at hshape
    cases res with
    | ok =>
      rcases hshape with ⟨_, h⟩ | ⟨hf, _⟩
      · rcases h with ⟨m, h⟩ | ⟨m, h⟩ | h <;> exact absurd h (by simp)
      · simp [processWithAssistant, hth, ht, hf, excOk]
    | fuelOut =>
      exact absurd (by simp [processWithAssistant, hth, ht]) hnf
    | exc e =>
      cases e with
      | openai m =>
        rcases hshape with ⟨hf, _⟩ | ⟨_, h⟩
        · cases hcu : env.chatUpdate <;>
            simp [processWithAssistant, hth, ht, hf, renderReply, hcu, excOk]
        · rcases h with h | ⟨m2, h⟩ <;> simp at h
      | timeoutExc m =>
        rcases hshape with ⟨hf, _⟩ | ⟨_, h⟩
        · cases hcu : env.chatUpdate <;>
            simp [processWithAssistant, hth, ht, hf, renderReply, hcu, excOk]
        · rcases h with h | ⟨m2, h⟩ <;> simp at h
      | slack m =>
        rcases hshape with ⟨_, h⟩ | ⟨hf, _⟩
        · rcases h with ⟨m2, h⟩ | ⟨m2, h⟩ | h <;> simp at h
        · simp [processWithAssistant, hth, ht, hf, excOk]
  | error em =>
    have hshape := tryBody_shape env map key prompt none fuel
    rcases ht : tryBody env map key prompt none fuel with ⟨es, m2, res⟩
    rw [ht] at hshape
    simp only at hshape
    cases res with
    | ok =>
      rcases hshape with ⟨_, h⟩ | ⟨hf, _⟩
      · rcases h with ⟨m, h⟩ | ⟨m, h⟩ | h <;> exact absurd h (by simp)
      · simp [processWithAssistant, hth, ht, hf, excOk]
    | fuelOut =>
      exact absurd (by simp [processWithAssistant, hth, ht]) hnf
    | exc e =>
      cases e with
      | openai m =>
        rcases hshape with ⟨hf, _⟩ | ⟨_, h⟩
        · cases hsf : env.sayFinal <;>
            simp [processWithAssistant, hth, ht, hf, renderReply, hsf, excOk]
        · rcases h with h | ⟨m2, h⟩ <;> simp at h
      | timeoutExc m =>
        rcases hshape with ⟨hf, _⟩ | ⟨_, h⟩
        · cases hsf : env.sayFinal <;>
            simp [processWithAssistant, hth, ht, hf, renderReply, hsf, excOk]
        · rcases h with h | ⟨m2, h⟩ <;> simp at h
      | slack m =>
        rcases hshape with ⟨_, h⟩ | ⟨hf, _⟩
        · rcases h with ⟨m2, h⟩ | ⟨m2, h⟩ | h <;> simp at h
        · simp [processWithAssistant, hth, ht, hf, excOk]

/-- Witness for C6 amended: the all-succeeding environment makes exactly
one render, an edit of the placeholder. -/
theorem C6_amended_witness :
    (processWithAssistant true envOk [] "k" "p" 5).2.2 ≠ .fuelOut
    ∧ renderFlags (processWithAssistant true envOk [] "k" "p" 5).1
        = [excOk envOk.sayThinking] :=
  ⟨by decide, C6_amended_single_render envOk [] "k" "p" 5 (by decide)⟩

/-- Counterexample to C6 as stated: a completed run whose final
`chat_update` raises — the single render attempt fails, the error is
caught and only logged (lines 184-186), the call returns normally, and
zero visible replies are produced (the placeholder is left dangling), so
"every admitted request yields exactly one visible reply" fails. -/
theorem C6_counterexample :
    visibleCount (processWithAssistant true
        { envOk with chatUpdate := .error "transport down" } [] "k" "p" 5).1 = 0
    ∧ ¬ (visibleCount (processWithAssistant true
        { envOk with chatUpdate := .error "transport down" } [] "k" "p" 5).1 = 1)
    ∧ (processWithAssistant true
        { envOk with chatUpdate := .error "transport down" } [] "k" "p" 5).2.2
        = .normal :=
  ⟨rfl, by decide, rfl⟩

/-- C7 is a code bug, demonstrated: when `runs.create` raises an
`OpenAIError` and the error-reporting `chat_update` inside the
`except OpenAIError` handler (line 177) itself raises a `SlackApiError`,
that exception escapes `process_with_assistant` to its caller — the
handlers at lines 174-183 render without any guard, unlike the cautious
`except Exception` branch. -/
theorem C7_exception_escapes_orchestrator :
    (processWithAssistant true
        { envOk with runsCreate := .error "api down", chatUpdate := .error "slack down" }
        [] "k" "p" 5).2.2
      = .raised (.slack "slack down") := rfl

/-- C5: for a known self-identifier `b` (a nonempty id string), a text of
the form whitespace ++ mention(b) ++ whitespace ++ rest normalizes to
trim(rest) — the leading mention with its surrounding whitespace is
removed, then the result is trimmed; and with the identifier unknown the
result is trim of the input. -/
theorem C5_clean_mention_normalizes (ws1 ws2 rest b t : List Char)
    (h1 : ∀ c ∈ ws1, c.isWhitespace = true)
    (h2 : ∀ c ∈ ws2, c.isWhitespace = true)
    (hb : b ≠ []) :
    cleanMention (ws1 ++ (mentionToken b ++ (ws2 ++ rest))) (some b) = trimText rest
    ∧ cleanMention t none = trimText t := by
  constructor
  · have hlt : ('<' : Char).isWhitespace = false := by decide
    have e1 : dropLeadingWs (ws1 ++ (mentionToken b ++ (ws2 ++ rest)))
        = mentionToken b ++ (ws2 ++ rest) := by
      rw [dropLeadingWs_ws_append _ _ h1]
      show dropLeadingWs ('<' :: ('@' :: (b ++ ['>']) ++ (ws2 ++ rest))) = _
      rw [dropLeadingWs_not_ws _ _ hlt]
      simp [mentionToken]
    have e2 : (mentionToken b).isPrefixOf (mentionToken b ++ (ws2 ++ rest)) = true := by
      simp [List.isPrefixOf_iff_prefix]
    simp only [cleanMention]
    rw [if_neg hb]
    simp only [e1, e2, if_true, List.drop_left]
    rw [dropLeadingWs_ws_append _ _ h2, trimText_dropLeadingWs]
  · rfl

/-- Witness for C5 at a concrete text `" <@U0>  hi there "` (split as
whitespace, mention token, whitespace, rest). -/
theorem C5_witness :
    (∀ c ∈ (" ".data), c.isWhitespace = true)
    ∧ (∀ c ∈ ("  ".data), c.isWhitespace = true)
    ∧ ("U0".data ≠ [])
    ∧ (cleanMention (" ".data ++ (mentionToken "U0".data ++ ("  ".data ++ "hi there ".data)))
          (some "U0".data) = trimText "hi there ".data
       ∧ cleanMention " raw text ".data none = trimText " raw text ".data) :=
  ⟨by decide, by decide, by decide,
    C5_clean_mention_normalizes " ".data "  ".data "hi there ".data "U0".data
      " raw text ".data (by decide) (by decide) (by decide)⟩

/-- Counterexample to C8 as stated: an event with a truthy `bot_id` but a
`user` different from the bot's own id passes every check the claim
enumerates, yet the handler rejects it — the claimed "if and only if"
fails. -/
theorem C8_counterexample :
    ¬ ((handle_message_events "U0"
          (MessageEvent.mk none (some "U2") (some "B1") (some "hola")
            (some "im") (some "C1") "2.0" none)).isSome
        = c8Admits "U0"
          (MessageEvent.mk none (some "U2") (some "B1") (some "hola")
            (some "im") (some "C1") "2.0" none)) := by
  decide

/-- C8 amended: the router invokes the orchestrator iff the claim's checks
pass AND the event carries no truthy bot-origin flag. -/
theorem C8_amended_admission (b : String) (m : MessageEvent) :
    (handle_message_events b m).isSome = c8AdmitsAmended b m := by
  cases h1 : (m.subtype == none) <;>
  cases h2 : (m.subtype == some "thread_broadcast") <;>
  cases h3 : (m.user == some b) <;>
  cases h4 : truthy m.bot_id <;>
  cases h5 : pyStartsWith (pyStrip (m.text.getD "")) ("<@" ++ b ++ ">") <;>
  cases h6 : supportedChannelTypes.contains ((m.channel_type).getD "") <;>
  cases h7 : (m.text.getD "" == "") <;>
  cases h8 : truthy m.user <;>
  simp [handle_message_events, c8AdmitsAmended, c8Admits, List.elem_eq_mem,
    h1, h2, h3, h4, h5, h6, h7, h8] at * <;>
  simp_all [List.elem_eq_mem]

/-- Witness for C9: a concrete event from another bot (`bot_id` set,
`user` ≠ the bot's id) is rejected. -/
theorem C9_witness :
    truthy (MessageEvent.mk none (some "U2") (some "B1") (some "hi")
        (some "im") (some "C1") "1.0" none).bot_id = true
    ∧ handle_message_events "U0"
        (MessageEvent.mk none (some "U2") (some "B1") (some "hi")
          (some "im") (some "C1") "1.0" none) = none :=
  ⟨by decide, C9_bot_messages_suppressed "U0" _ (by decide)⟩

end Pineapple
